import Mathlib

/-!
Verification of the PensionFunCardano quantitative core against its
natural-language specification.

The repository carries two parallel implementations of the pricing layer:
an untyped one (`pensionfund/pricer.py`, `bond.py`, `hedging.py`,
`funding_ratio_analysis.py`) and a typed one under `pensionfund/utils/`.
Both are embedded here.  Python floats are modelled as exact real numbers;
a Python method that can raise is modelled as a function into
`Except String _`, with the raised message as the error value.
-/

noncomputable section

namespace PensionFund

/-- Default rate bump: `delta_r=0.0001` in both pricers. -/
def defaultDelta : ℝ := 1e-4

/-- Shared discounted-cash-flow sum: `Σ amount_t / (1+rate)^t` over the
element-wise pairing of `cash_flows` with `times` (numpy broadcasts the
two equal-length arrays; `zip` realises that pairing). -/
def pvSum (cash_flows : List ℝ) (times : List ℕ) (rate : ℝ) : ℝ :=
  ((cash_flows.zip times).map (fun p => p.1 / (1 + rate) ^ p.2)).sum

/-- Untyped `pensionfund/pricer.py` `Pricer`: stores the arrays and the
rate; its `__init__` performs no validation. -/
structure Pricer where
  cash_flows : List ℝ
  times : List ℕ
  interest_rate : ℝ

/-- `Pricer.present_value`: `np.sum(cash_flows / (1+r)**times)` at the
stored rate. -/
def Pricer.present_value (p : Pricer) : ℝ :=
  pvSum p.cash_flows p.times p.interest_rate

/-- `Pricer.dv01(delta_r)`: forward difference
`present_value() - np.sum(cash_flows / (1 + r + delta_r)**times)`. -/
def Pricer.dv01 (p : Pricer) (delta_r : ℝ) : ℝ :=
  p.present_value - pvSum p.cash_flows p.times (p.interest_rate + delta_r)

/-- `Pricer.modified_duration(delta_r)`: `dv01 / (pv_current * delta_r)`
with no zero-PV check.  The operands are numpy float64 scalars, whose
division by zero yields `inf`/`nan` without raising, so this method has
no error branch; it is wrapped in `Except` only to put it on the same
footing as the typed variant, which does raise. -/
def Pricer.modified_duration (p : Pricer) (delta_r : ℝ) : Except String ℝ :=
  Except.ok (p.dv01 delta_r / (p.present_value * delta_r))

namespace Utils

/-- Typed `pensionfund/utils/pricer.py` `Pricer` (fields after a
successful `__init__`). -/
structure Pricer where
  cash_flows : List ℝ
  times : List ℕ
  interest_rate : ℝ

/-- Typed `Pricer.__init__`: rejects mismatched lengths, then a negative
interest rate. -/
def Pricer.make (cash_flows : List ℝ) (times : List ℕ) (interest_rate : ℝ) :
    Except String Utils.Pricer :=
  if cash_flows.length ≠ times.length then
    Except.error ("The number of cash flows must match the number of time periods.")
  else if interest_rate < 0 then
    Except.error ("Interest rate cannot be negative.")
  else
    Except.ok ⟨cash_flows, times, interest_rate⟩

/-- Typed `Pricer.present_value(interest_rate=None)`: `none` means the
stored rate. -/
def Pricer.present_value (p : Utils.Pricer) (interest_rate : Option ℝ) : ℝ :=
  pvSum p.cash_flows p.times (interest_rate.getD p.interest_rate)

/-- Typed `Pricer.dv01(interest_rate=None, delta_r=0.0001)`: central
difference `(pv(r - delta_r) - pv(r + delta_r)) / 2` around the given
(or stored) rate. -/
def Pricer.dv01 (p : Utils.Pricer) (interest_rate : Option ℝ) (delta_r : ℝ) : ℝ :=
  (p.present_value (some (interest_rate.getD p.interest_rate - delta_r)) -
    p.present_value (some (interest_rate.getD p.interest_rate + delta_r))) / 2

/-- Typed `Pricer.modified_duration(delta_r=0.0001)`.  The source calls
`self.dv01(delta_r)`, passing `delta_r` positionally into `dv01`'s first
parameter `interest_rate` (so the DV01 is centred at rate `delta_r`
with the default bump), then divides by `pv_current * delta_r`, raising
when the present value at the stored rate is zero. -/
def Pricer.modified_duration (p : Utils.Pricer) (delta_r : ℝ) : Except String ℝ :=
  if p.present_value none = 0 then
    Except.error ("Present value is zero, cannot calculate modified duration.")
  else
    Except.ok (p.dv01 (some delta_r) defaultDelta / (p.present_value none * delta_r))

end Utils

/-- `Bond.generate_cash_flows` (`pensionfund/bond.py`):
`np.full(maturity, coupon * face_value)` followed by
`cash_flows[-1] += face_value`.  For `maturity = 0` the `List.set` call
is out of range and leaves the empty list unchanged (the constructor
rejects that case before this runs). -/
def generate_cash_flows (coupon face_value : ℝ) (maturity : ℕ) : List ℝ :=
  (List.replicate maturity (coupon * face_value)).set (maturity - 1)
    (coupon * face_value + face_value)

/-- `Bond.__init__` validation plus the derived schedule: rejects
`maturity <= 0`, then `coupon` outside `[0,1]`; otherwise the generated
cash-flow list. -/
def Bond.make (coupon : ℝ) (maturity : ℤ) (face_value : ℝ) :
    Except String (List ℝ) :=
  if maturity ≤ 0 then
    Except.error ("Maturity must be a positive integer.")
  else if ¬(0 ≤ coupon ∧ coupon ≤ 1) then
    Except.error ("Coupon rate must be between 0 and 1.")
  else
    Except.ok (generate_cash_flows coupon face_value maturity.toNat)

/-- The bond's time axis: `np.arange(1, maturity + 1)`, i.e. `[1..T]`. -/
def bondTimes (maturity : ℕ) : List ℕ :=
  List.range' 1 maturity

/-- `Hedging` (`pensionfund/utils/hedging.py` and `pensionfund/hedging.py`,
identical logic): the fields after a successful `__init__`. -/
structure Hedging where
  liability_dv01 : ℝ
  bond_dv01 : ℝ
  hedge_percentage : ℝ

/-- `Hedging.__init__`: rejects `hedge_percentage` outside `(0,1]`, then
`bond_dv01 == 0`. -/
def Hedging.make (liability_dv01 bond_dv01 hedge_percentage : ℝ) :
    Except String Hedging :=
  if ¬(0 < hedge_percentage ∧ hedge_percentage ≤ 1) then
    Except.error ("Hedge percentage must be between 0 (exclusive) and 1 (inclusive).")
  else if bond_dv01 = 0 then
    Except.error ("Bond DV01 cannot be zero.")
  else
    Except.ok ⟨liability_dv01, bond_dv01, hedge_percentage⟩

/-- `Hedging.calculate_notional`:
`(hedge_percentage * liability_dv01) / bond_dv01` (the guarded
`ZeroDivisionError` re-raise is unreachable after `__init__`). -/
def Hedging.calculate_notional (hg : Hedging) : ℝ :=
  (hg.hedge_percentage * hg.liability_dv01) / hg.bond_dv01

/-- `Hedging.calculate_hedge_ratio(notional, liability_dv01_current,
bond_dv01_current)`: raises when the current liability DV01 is zero,
otherwise `(notional * bond_dv01_current) / liability_dv01_current`.
The method reads no instance state, so it is embedded without the
`Hedging` value. -/
def Hedging.calculate_hedge_ratio
    (notional liability_dv01_current bond_dv01_current : ℝ) :
    Except String ℝ :=
  if liability_dv01_current = 0 then
    Except.error ("Liability DV01 cannot be zero.")
  else
    Except.ok ((notional * bond_dv01_current) / liability_dv01_current)

/-- `FundingRatioAnalysis` fields after a successful `__init__`. -/
structure FundingRatioAnalysis where
  initial_funding_ratio : ℝ
  nominal_rate : ℝ

/-- `FundingRatioAnalysis.__init__`: rejects `initial_funding_ratio`
outside the open interval `(0,1)`, then `nominal_rate <= 0`. -/
def FundingRatioAnalysis.make (initial_funding_ratio nominal_rate : ℝ) :
    Except String FundingRatioAnalysis :=
  if ¬(0 < initial_funding_ratio ∧ initial_funding_ratio < 1) then
    Except.error ("Initial funding ratio must be between 0 and 1.")
  else if nominal_rate ≤ 0 then
    Except.error ("Nominal rate must be a positive number.")
  else
    Except.ok ⟨initial_funding_ratio, nominal_rate⟩

/-- `FundingRatioAnalysis.time_to_full_funding(x)`: with
`denominator = 1 + nominal_rate + x`, returns `np.inf` (modelled as `⊤`
in `EReal`) when `denominator <= 1`, otherwise
`np.log(1.0 / initial_funding_ratio) / np.log(denominator)`.  In exact
real arithmetic the `try/except` around the logarithms never fires. -/
def FundingRatioAnalysis.time_to_full_funding
    (fra : FundingRatioAnalysis) (x : ℝ) : EReal :=
  if 1 + fra.nominal_rate + x ≤ 1 then
    (⊤ : EReal)
  else
    ((Real.log (1.0 / fra.initial_funding_ratio) /
      Real.log (1 + fra.nominal_rate + x) : ℝ) : EReal)

/-- Insertion into a Python `dict`, modelled as an insertion-ordered
association list: assigning to an existing key overwrites its value in
place, otherwise the pair is appended. -/
def dictInsert (d : List (ℝ × EReal)) (k : ℝ) (v : EReal) : List (ℝ × EReal) :=
  match d with
  | [] => [(k, v)]
  | (k0, v0) :: rest =>
      if k0 = k then (k0, v) :: rest else (k0, v0) :: dictInsert rest k v

/-- `FundingRatioAnalysis.analyze(x_values)`: builds `results = {}` and
assigns `results[x] = time_to_full_funding(x)` for each `x` in order,
returning the dict (so duplicate keys collapse). -/
def FundingRatioAnalysis.analyze
    (fra : FundingRatioAnalysis) (x_values : List ℝ) : List (ℝ × EReal) :=
  x_values.foldl (fun d x => dictInsert d x (fra.time_to_full_funding x)) []

namespace Utils

/-- Modelled from the spec: `pensionfund/utils/bond.py` is imported by
`utils/main_utils.py` but absent from the sources; per §4.1 of the spec
(matching the untyped `pensionfund/bond.py`), construction rejects
`maturity <= 0` and `coupon ∉ [0,1]` with `InvalidParameter`, and the
schedule pays `coupon*face_value` each period with `face_value` added at
maturity; the schedule does not depend on the discount rate. -/
def Bond.make (coupon : ℝ) (maturity : ℤ) (face_value : ℝ) :
    Except String (List ℝ) :=
  if maturity ≤ 0 then
    Except.error ("Maturity must be a positive integer.")
  else if ¬(0 ≤ coupon ∧ coupon ≤ 1) then
    Except.error ("Coupon rate must be between 0 and 1.")
  else
    Except.ok (generate_cash_flows coupon face_value maturity.toNat)

end Utils

/-- `calculate_hedge_ratio_over_time` (`pensionfund/utils/main_utils.py`):
constructs the bond once, then for each scenario row `(day, rate)` in
order builds a typed `Pricer` for the bond's schedule at the row's rate,
takes its `dv01()` (stored rate, default bump), takes the liability
pricer's `dv01(interest_rate=rate)`, computes
`hedging.calculate_hedge_ratio(notional, liability_dv01, bond_dv01)`,
and emits `(days_from_now, hedge_ratio, bond_dv01, liability_dv01)`.
Any raise aborts the whole computation (Python exception propagation,
modelled by the `Except` monad). -/
def calculate_hedge_ratio_over_time
    (notional : ℝ) (scenario : List (ℤ × ℝ))
    (coupon : ℝ) (maturity : ℤ) (face_value : ℝ)
    (liabilities_pricer : Utils.Pricer) :
    Except String (List (ℤ × ℝ × ℝ × ℝ)) := do
  let bond_cash_flows ← Utils.Bond.make coupon maturity face_value
  scenario.mapM (fun row => do
    let bond_pricer ← Utils.Pricer.make bond_cash_flows
      (bondTimes maturity.toNat) row.2
    let current_bond_dv01 := bond_pricer.dv01 none defaultDelta
    let current_liability_dv01 :=
      liabilities_pricer.dv01 (some row.2) defaultDelta
    let current_hedge_ratio ← Hedging.calculate_hedge_ratio notional
      current_liability_dv01 current_bond_dv01
    pure (row.1, current_hedge_ratio, current_bond_dv01, current_liability_dv01))

/-! ### Helper lemmas for present-value monotonicity -/

lemma term_le {r1 r2 a : ℝ} (t : ℕ) (ha : 0 ≤ a) (h1 : (-1:ℝ) < r1)
    (h12 : r1 ≤ r2) : a / (1 + r2) ^ t ≤ a / (1 + r1) ^ t := by
  have h0 : (0:ℝ) < 1 + r1 := by linarith
  gcongr

lemma term_lt {r1 r2 a : ℝ} {t : ℕ} (ha : 0 < a) (ht : t ≠ 0)
    (h1 : (-1:ℝ) < r1) (h12 : r1 < r2) :
    a / (1 + r2) ^ t < a / (1 + r1) ^ t := by
  have h0 : (0:ℝ) < 1 + r1 := by linarith
  have hpow : (1 + r1) ^ t < (1 + r2) ^ t :=
    pow_lt_pow_left₀ (by linarith) (by linarith) ht
  exact div_lt_div_of_pos_left ha (pow_pos h0 t) hpow

lemma pairs_sum_le {r1 r2 : ℝ} (h1 : (-1:ℝ) < r1) (h12 : r1 ≤ r2) :
    ∀ l : List (ℝ × ℕ), (∀ p ∈ l, 0 ≤ p.1) →
      (l.map (fun p => p.1 / (1 + r2) ^ p.2)).sum ≤
      (l.map (fun p => p.1 / (1 + r1) ^ p.2)).sum := by
  intro l
  induction l with
  | nil => intro _; simp
  | cons p rest ih =>
      intro hnn
      simp only [List.map_cons, List.sum_cons]
      have hp := hnn p (List.mem_cons_self p rest)
      have hrest := ih (fun q hq => hnn q (List.mem_cons_of_mem p hq))
      exact add_le_add (term_le p.2 hp h1 h12) hrest

lemma pairs_sum_lt {r1 r2 : ℝ} (h1 : (-1:ℝ) < r1) (h12 : r1 < r2) :
    ∀ l : List (ℝ × ℕ), (∀ p ∈ l, 0 ≤ p.1) → (∀ p ∈ l, 1 ≤ p.2) →
      (∃ p ∈ l, 0 < p.1) →
      (l.map (fun p => p.1 / (1 + r2) ^ p.2)).sum <
      (l.map (fun p => p.1 / (1 + r1) ^ p.2)).sum := by
  intro l
  induction l with
  | nil => intro _ _ hex; rcases hex with ⟨p, hp, _⟩; simp at hp
  | cons p rest ih =>
      intro hnn hts hex
      simp only [List.map_cons, List.sum_cons]
      have hp0 := hnn p (List.mem_cons_self p rest)
      have hrest_nn := fun q hq => hnn q (List.mem_cons_of_mem p hq)
      by_cases hp : 0 < p.1
      · have ht : p.2 ≠ 0 := by
          have := hts p (List.mem_cons_self p rest); omega
        exact add_lt_add_of_lt_of_le (term_lt hp ht h1 h12)
          (pairs_sum_le h1 h12.le rest hrest_nn)
      · rcases hex with ⟨q, hq, hq0⟩
        rcases List.mem_cons.mp hq with hq | hq
        · exact absurd (hq ▸ hq0) hp
        · have hrest_ts := fun q hq => hts q (List.mem_cons_of_mem p hq)
          exact add_lt_add_of_le_of_lt (term_le p.2 hp0 h1 h12.le)
            (ih hrest_nn hrest_ts ⟨q, hq, hq0⟩)

/-- The discounted-sum core is strictly antitone in the rate on a
schedule with matching lengths, positive times, non-negative amounts,
and at least one positive amount. -/
lemma pvSum_strict_anti (cfs : List ℝ) (ts : List ℕ) {r1 r2 : ℝ}
    (hlen : cfs.length = ts.length)
    (hts : ∀ t ∈ ts, 1 ≤ t)
    (hnn : ∀ a ∈ cfs, 0 ≤ a)
    (hex : ∃ a ∈ cfs, 0 < a)
    (h1 : (-1:ℝ) < r1) (h12 : r1 < r2) :
    pvSum cfs ts r2 < pvSum cfs ts r1 := by
  apply pairs_sum_lt h1 h12
  · intro p hp
    exact hnn p.1 (List.of_mem_zip hp).1
  · intro p hp
    exact hts p.2 (List.of_mem_zip hp).2
  · rcases hex with ⟨a, ha, ha0⟩
    rcases List.mem_iff_getElem.mp ha with ⟨i, hi, rfl⟩
    have hi2 : i < (cfs.zip ts).length := by
      simp [List.length_zip, hlen] at hi ⊢
      omega
    refine ⟨(cfs.zip ts)[i], List.getElem_mem hi2, ?_⟩
    simp [List.getElem_zip]
    exact ha0

/-! ### Claims -/

/-- C1 counterexample: the untyped `Pricer.dv01` (`pensionfund/pricer.py`)
is a forward difference, not the claimed symmetric central difference.
At the schedule `([1], [1])`, rate `0 > -1` and the default bump `1e-4`,
its value `1 - 1/1.0001` differs from
`(present_value(-1e-4) - present_value(1e-4)) / 2`. -/
theorem C1_counterexample :
    (-1 : ℝ) < 0 ∧
    Pricer.dv01 ⟨[1], [1], 0⟩ defaultDelta ≠
      (Pricer.present_value ⟨[1], [1], 0 - defaultDelta⟩ -
        Pricer.present_value ⟨[1], [1], 0 + defaultDelta⟩) / 2 := by
  constructor
  · norm_num
  · simp [Pricer.dv01, Pricer.present_value, pvSum, defaultDelta]
    norm_num

/-- C1 amended: for every schedule and every rate `r > -1`, the typed
`Pricer.dv01` (`utils/pricer.py`) equals the symmetric central
difference `(present_value(r - bump) - present_value(r + bump)) / 2`,
while the untyped `Pricer.dv01` (`pensionfund/pricer.py`) equals the
forward difference `present_value(r) - present_value(r + bump)`. -/
theorem C1_amended_dv01 (cfs : List ℝ) (ts : List ℕ) (r b : ℝ)
    (hr : (-1 : ℝ) < r) :
    Utils.Pricer.dv01 ⟨cfs, ts, r⟩ none b =
      (Utils.Pricer.present_value ⟨cfs, ts, r⟩ (some (r - b)) -
        Utils.Pricer.present_value ⟨cfs, ts, r⟩ (some (r + b))) / 2 ∧
    Pricer.dv01 ⟨cfs, ts, r⟩ b =
      Pricer.present_value ⟨cfs, ts, r⟩ -
        Pricer.present_value ⟨cfs, ts, r + b⟩ := by
  constructor
  · simp [Utils.Pricer.dv01, Utils.Pricer.present_value]
  · simp [Pricer.dv01, Pricer.present_value]

/-- C1 witness: the amended statement instantiated at the schedule
`([1], [1])`, rate `1/20` and the default bump. -/
theorem C1_witness :
    Utils.Pricer.dv01 ⟨[1], [1], 1/20⟩ none defaultDelta =
      (Utils.Pricer.present_value ⟨[1], [1], 1/20⟩ (some (1/20 - defaultDelta)) -
        Utils.Pricer.present_value ⟨[1], [1], 1/20⟩ (some (1/20 + defaultDelta))) / 2 ∧
    Pricer.dv01 ⟨[1], [1], 1/20⟩ defaultDelta =
      Pricer.present_value ⟨[1], [1], 1/20⟩ -
        Pricer.present_value ⟨[1], [1], 1/20 + defaultDelta⟩ :=
  C1_amended_dv01 [1] [1] (1/20) defaultDelta (by norm_num)

/-- C2 counterexample: the claim omits `L ≠ 0`.  With `L = 0`, `B = 1`,
`h = 1/2`, construction succeeds and the notional is `0`, but
`calculate_hedge_ratio(0, 0, 1)` raises instead of returning `h`. -/
theorem C2_counterexample :
    Hedging.make 0 1 (1/2) = Except.ok ⟨0, 1, 1/2⟩ ∧
    Hedging.calculate_hedge_ratio
        (Hedging.calculate_notional ⟨0, 1, 1/2⟩) 0 1 =
      Except.error ("Liability DV01 cannot be zero.") := by
  constructor
  · simp only [Hedging.make]
    rw [if_neg (by norm_num), if_neg (by norm_num)]
  · simp [Hedging.calculate_hedge_ratio]

/-- C2 amended: for every liability DV01 `L ≠ 0`, bond DV01 `B ≠ 0` and
hedge percentage `h ∈ (0,1]`, construction succeeds and
`calculate_hedge_ratio(calculate_notional(), L, B)` returns exactly
`h`. -/
theorem C2_amended_roundtrip (L B h : ℝ) (hL : L ≠ 0) (hB : B ≠ 0)
    (h0 : 0 < h) (h1 : h ≤ 1) :
    Hedging.make L B h = Except.ok ⟨L, B, h⟩ ∧
    Hedging.calculate_hedge_ratio
        (Hedging.calculate_notional ⟨L, B, h⟩) L B = Except.ok h := by
  constructor
  · simp [Hedging.make, h0, h1, hB]
  · simp [Hedging.calculate_hedge_ratio, Hedging.calculate_notional, hL]
    field_simp

/-- C2 witness: the amended round trip at `L = 2`, `B = 3`, `h = 1`. -/
theorem C2_witness :
    Hedging.make 2 3 1 = Except.ok ⟨2, 3, 1⟩ ∧
    Hedging.calculate_hedge_ratio
        (Hedging.calculate_notional ⟨2, 3, 1⟩) 2 3 = Except.ok 1 :=
  C2_amended_roundtrip 2 3 1 (by norm_num) (by norm_num) (by norm_num)
    (by norm_num)

/-- C5: for a solver constructed with `ρ₀ ∈ (0,1)` and `n > 0`,
`time_to_full_funding(x)` is `+∞` when `1 + n + x ≤ 1` and
`ln(1/ρ₀) / ln(1 + n + x)` otherwise. -/
theorem C5_time_to_full_funding (r n x : ℝ) (h0 : 0 < r) (h1 : r < 1)
    (hn : 0 < n) :
    FundingRatioAnalysis.make r n = Except.ok ⟨r, n⟩ ∧
    (1 + n + x ≤ 1 →
      FundingRatioAnalysis.time_to_full_funding ⟨r, n⟩ x = ⊤) ∧
    (1 < 1 + n + x →
      FundingRatioAnalysis.time_to_full_funding ⟨r, n⟩ x =
        ((Real.log (1 / r) / Real.log (1 + n + x) : ℝ) : EReal)) := by
  refine ⟨?_, ?_, ?_⟩
  · simp [FundingRatioAnalysis.make, h0, h1, not_le.mpr hn]
  · intro hle
    simp [FundingRatioAnalysis.time_to_full_funding, hle]
  · intro hgt
    simp only [FundingRatioAnalysis.time_to_full_funding]
    rw [if_neg (by linarith)]
    norm_num

/-- C5 witness: the solver `(ρ₀ = 0.8, n = 0.015)` of the spec's example
at `x = -0.02`, where the denominator `0.995 ≤ 1` forces `+∞`. -/
theorem C5_witness :
    FundingRatioAnalysis.make (4/5) (3/200) = Except.ok ⟨4/5, 3/200⟩ ∧
    FundingRatioAnalysis.time_to_full_funding ⟨4/5, 3/200⟩ (-1/50) = ⊤ :=
  ⟨(C5_time_to_full_funding (4/5) (3/200) (-1/50) (by norm_num) (by norm_num)
      (by norm_num)).1,
    (C5_time_to_full_funding (4/5) (3/200) (-1/50) (by norm_num) (by norm_num)
      (by norm_num)).2.1 (by norm_num)⟩

/-- C7 counterexample: at cash flows `[100, 100, 1100]`, times
`[1, 2, 3]` and rate `0.05`, the present value does equal
`100/1.05 + 100/1.05² + 1100/1.05³`, but that sum is ≈ 1136.16, more
than 1000 away from the claimed ≈ 2238.10. -/
theorem C7_counterexample :
    Pricer.present_value ⟨[100, 100, 1100], [1, 2, 3], 0.05⟩ =
      100 / 1.05 + 100 / 1.05 ^ 2 + 1100 / 1.05 ^ 3 ∧
    1000 <
      |Pricer.present_value ⟨[100, 100, 1100], [1, 2, 3], 0.05⟩ - 2238.10| := by
  constructor
  · simp [Pricer.present_value, pvSum]
    norm_num
  · have : Pricer.present_value ⟨[100, 100, 1100], [1, 2, 3], 0.05⟩ =
        10522000 / 9261 := by
      simp [Pricer.present_value, pvSum]
      norm_num
    rw [this]
    rw [abs_sub_comm, abs_of_pos (by norm_num)]
    norm_num

/-- C7 amended: the present value at that input equals
`100/1.05 + 100/1.05² + 1100/1.05³ ≈ 1136.16` (the repository's own
test asserts the same sum). -/
theorem C7_amended_present_value :
    Pricer.present_value ⟨[100, 100, 1100], [1, 2, 3], 0.05⟩ =
      100 / 1.05 + 100 / 1.05 ^ 2 + 1100 / 1.05 ^ 3 ∧
    |Pricer.present_value ⟨[100, 100, 1100], [1, 2, 3], 0.05⟩ - 1136.16| <
      1 / 100 := by
  constructor
  · simp [Pricer.present_value, pvSum]
    norm_num
  · have : Pricer.present_value ⟨[100, 100, 1100], [1, 2, 3], 0.05⟩ =
        10522000 / 9261 := by
      simp [Pricer.present_value, pvSum]
      norm_num
    rw [this, abs_of_pos (by norm_num)]
    norm_num

/-- C10: the typed `Pricer` constructor rejects any negative interest
rate (including rates in `(-1, 0)`) and any length mismatch between the
cash-flow and time sequences, raising `ValueError` in both cases. -/
theorem C10_pricer_init_validation (cfs : List ℝ) (ts : List ℕ) (r : ℝ) :
    (r < 0 → ∃ e, Utils.Pricer.make cfs ts r = Except.error e) ∧
    (cfs.length ≠ ts.length →
      ∃ e, Utils.Pricer.make cfs ts r = Except.error e) := by
  constructor
  · intro hr
    by_cases hlen : cfs.length = ts.length
    · exact ⟨("Interest rate cannot be negative."),
        by simp [Utils.Pricer.make, hlen, hr]⟩
    · exact ⟨("The number of cash flows must match the number of time periods."),
        by simp [Utils.Pricer.make, hlen]⟩
  · intro hlen
    exact ⟨("The number of cash flows must match the number of time periods."),
      by simp [Utils.Pricer.make, hlen]⟩

/-- C10 witness: rejection at rate `-1/2 ∈ (-1, 0)` with matching
lengths, and at mismatched lengths with a valid rate. -/
theorem C10_witness :
    (∃ e, Utils.Pricer.make [1] [1] (-1/2) = Except.error e) ∧
    (∃ e, Utils.Pricer.make [1] [] 0 = Except.error e) :=
  ⟨(C10_pricer_init_validation [1] [1] (-1/2)).1 (by norm_num),
    (C10_pricer_init_validation [1] [] 0).2 (by simp)⟩

/-- C3: `FundingRatioAnalysis.analyze` builds a dict keyed by the
floating-point offset, so the duplicate input `[0.01, 0.01]` collapses
to a single entry instead of the required two order-preserving pairs
(the spec flags exactly this keyed-map design as a defect to avoid). -/
theorem C3_analyze_collapses_duplicates :
    (FundingRatioAnalysis.analyze ⟨4/5, 3/200⟩ [1/100, 1/100]).length = 1 ∧
    ([(1:ℝ)/100, 1/100]).length = 2 := by
  constructor
  · simp [FundingRatioAnalysis.analyze, dictInsert]
  · simp

/-- C4: the typed `modified_duration` does raise when the present value
is zero (first two conjuncts exercise the untyped variant, which does
not: at `([1,-1],[1,2])`, rate `0`, its present value is zero yet it
still returns a numpy quotient).  The third conjunct shows the typed
quotient is wrong: `self.dv01(delta_r)` passes `delta_r` positionally
as `dv01`'s `interest_rate`, so at `([1],[1])`, rate `0.05`, the result
differs from `dv01(schedule, r, bump) / (pv · bump)` claimed by the
spec and by the method's own docstring. -/
theorem C4_modified_duration_bug :
    Pricer.present_value ⟨[1, -1], [1, 2], 0⟩ = 0 ∧
    (Pricer.modified_duration ⟨[1, -1], [1, 2], 0⟩ defaultDelta).isOk = true ∧
    Utils.Pricer.modified_duration ⟨[1], [1], 1/20⟩ defaultDelta ≠
      Except.ok (Utils.Pricer.dv01 ⟨[1], [1], 1/20⟩ none defaultDelta /
        (Utils.Pricer.present_value ⟨[1], [1], 1/20⟩ none * defaultDelta)) := by
  refine ⟨?_, ?_, ?_⟩
  · simp [Pricer.present_value, pvSum]
  · simp [Pricer.modified_duration, Except.isOk, Except.toBool]
  · simp only [Utils.Pricer.modified_duration]
    rw [if_neg (by simp [Utils.Pricer.present_value, pvSum]; norm_num)]
    simp [Utils.Pricer.dv01, Utils.Pricer.present_value, pvSum, defaultDelta]
    norm_num

/-- C6 counterexample: the claim allows an all-zero schedule, on which
the present value is constantly `0`, hence not strictly decreasing:
with cash flows `[0]`, times `[1]`, `r1 = 0 > -1 < r2 = 1`, the strict
inequality fails. -/
theorem C6_counterexample :
    ([(0:ℝ)] ≠ []) ∧ (∀ a ∈ [(0:ℝ)], 0 ≤ a) ∧ ((-1:ℝ) < 0) ∧ ((0:ℝ) < 1) ∧
    ¬(Pricer.present_value ⟨[0], [1], 1⟩ <
        Pricer.present_value ⟨[0], [1], 0⟩) := by
  refine ⟨by simp, by simp, by norm_num, by norm_num, ?_⟩
  simp [Pricer.present_value, pvSum]

/-- C6 amended: for every non-empty schedule with matching lengths,
positive times, all amounts ≥ 0 and at least one amount > 0, the
present value (untyped and typed alike) is strictly decreasing in the
rate over `rate > -1`. -/
theorem C6_amended_strict_decrease (cfs : List ℝ) (ts : List ℕ) (r1 r2 : ℝ)
    (hlen : cfs.length = ts.length) (hts : ∀ t ∈ ts, 1 ≤ t)
    (hnn : ∀ a ∈ cfs, 0 ≤ a) (hex : ∃ a ∈ cfs, 0 < a)
    (h1 : (-1:ℝ) < r1) (h12 : r1 < r2) :
    Pricer.present_value ⟨cfs, ts, r2⟩ < Pricer.present_value ⟨cfs, ts, r1⟩ ∧
    Utils.Pricer.present_value ⟨cfs, ts, r2⟩ none <
      Utils.Pricer.present_value ⟨cfs, ts, r1⟩ none := by
  have key := pvSum_strict_anti cfs ts hlen hts hnn hex h1 h12
  exact ⟨key, key⟩

/-- C6 witness: the amended statement at cash flows `[1]`, times `[1]`,
rates `0 < 1`. -/
theorem C6_witness :
    Pricer.present_value ⟨[1], [1], 1⟩ < Pricer.present_value ⟨[1], [1], 0⟩ ∧
    Utils.Pricer.present_value ⟨[1], [1], 1⟩ none <
      Utils.Pricer.present_value ⟨[1], [1], 0⟩ none :=
  C6_amended_strict_decrease [1] [1] 0 1 (by simp) (by simp) (by norm_num)
    ⟨1, by simp, by norm_num⟩ (by norm_num) (by norm_num)

/-- C8: for coupon `c ∈ [0,1]`, maturity `T ≥ 1` and face value `F`,
`Bond` generation yields a schedule of length `T` paying `c·F` at
periods `1..T-1` and `c·F + F` at period `T`; and it fails whenever
`maturity ≤ 0` or the coupon lies outside `[0,1]`. -/
theorem C8_bond_schedule :
    (∀ (c F : ℝ) (T : ℤ), 0 ≤ c → c ≤ 1 → 1 ≤ T →
      Bond.make c T F = Except.ok (generate_cash_flows c F T.toNat) ∧
      (generate_cash_flows c F T.toNat).length = T.toNat ∧
      (∀ i : ℕ, i < T.toNat - 1 →
        (generate_cash_flows c F T.toNat).getD i 0 = c * F) ∧
      (generate_cash_flows c F T.toNat).getD (T.toNat - 1) 0 = c * F + F) ∧
    (∀ (c F : ℝ) (T : ℤ), T ≤ 0 ∨ c < 0 ∨ 1 < c →
      ∃ e, Bond.make c T F = Except.error e) := by
  constructor
  · intro c F T hc0 hc1 hT
    have hTn : 1 ≤ T.toNat := by omega
    have hT0 : ¬(T ≤ 0) := by omega
    have hlen : (generate_cash_flows c F T.toNat).length = T.toNat := by
      simp [generate_cash_flows]
    refine ⟨by simp [Bond.make, hT0, hc0, hc1], hlen, ?_, ?_⟩
    · intro i hi
      rw [List.getD_eq_getElem _ _ (by omega)]
      simp only [generate_cash_flows]
      rw [List.getElem_set_ne (by omega)]
      simp
    · rw [List.getD_eq_getElem _ _ (by omega)]
      simp only [generate_cash_flows]
      rw [List.getElem_set_self (by simp; omega)]
  · intro c F T h
    by_cases hT : T ≤ 0
    · exact ⟨("Maturity must be a positive integer."), by simp [Bond.make, hT]⟩
    · have hc : ¬(0 ≤ c ∧ c ≤ 1) := by
        rcases h with h | h | h
        · exact absurd h hT
        · intro hc2; linarith [hc2.1]
        · intro hc2; linarith [hc2.2]
      exact ⟨("Coupon rate must be between 0 and 1."),
        by simp only [Bond.make]; rw [if_neg hT, if_pos hc]⟩

/-- C8 witness: the spec's example bond `(c = 0.05, T = 3, F = 1)`
succeeds with final payment `1.05`, and maturity `0` is rejected. -/
theorem C8_witness :
    Bond.make (1/20) 3 1 = Except.ok (generate_cash_flows (1/20) 1 (3:ℤ).toNat) ∧
    (generate_cash_flows (1/20) 1 (3:ℤ).toNat).getD ((3:ℤ).toNat - 1) 0 =
      1/20 * 1 + 1 ∧
    (∃ e, Bond.make (1/20) 0 1 = Except.error e) :=
  ⟨(C8_bond_schedule.1 (1/20) 1 3 (by norm_num) (by norm_num) (by norm_num)).1,
    (C8_bond_schedule.1 (1/20) 1 3 (by norm_num) (by norm_num)
      (by norm_num)).2.2.2,
    C8_bond_schedule.2 (1/20) 1 0 (Or.inl le_rfl)⟩

/-- C9 counterexample: the claim quantifies over all schedules, but a
single scenario point over an all-zero liability schedule makes the
liability DV01 zero, so the hedge-ratio computation raises instead of
producing a one-element sequence. -/
theorem C9_counterexample :
    calculate_hedge_ratio_over_time 1 [(0, 1/20)] (1/20) 1 1 ⟨[0], [1], 1/20⟩ =
      Except.error ("Liability DV01 cannot be zero.") := by
  simp [calculate_hedge_ratio_over_time, Utils.Bond.make, Utils.Pricer.make,
    Utils.Pricer.dv01, Utils.Pricer.present_value, pvSum, generate_cash_flows,
    bondTimes, Hedging.calculate_hedge_ratio, defaultDelta, Bind.bind,
    Except.bind, List.mapM, List.mapM.loop]
  norm_num

/-- C9 amended: with valid bond terms (`coupon ∈ [0,1]`, `maturity ≥ 1`),
a non-negative scenario rate and a nonzero liability DV01 at that rate,
the hedge-ratio time series over an empty scenario path is the empty
sequence and over a single point `(day, rate)` is exactly one
`(day, ratio, bondDV01, liabilityDV01)` tuple. -/
theorem C9_amended_time_series (c F notional : ℝ) (T : ℤ) (d : ℤ) (r : ℝ)
    (liab : Utils.Pricer)
    (hc0 : 0 ≤ c) (hc1 : c ≤ 1) (hT : 1 ≤ T) (hr : 0 ≤ r)
    (hl : liab.dv01 (some r) defaultDelta ≠ 0) :
    calculate_hedge_ratio_over_time notional [] c T F liab = Except.ok [] ∧
    calculate_hedge_ratio_over_time notional [(d, r)] c T F liab =
      Except.ok [(d,
        (notional * Utils.Pricer.dv01
            ⟨generate_cash_flows c F T.toNat, bondTimes T.toNat, r⟩
            none defaultDelta) / liab.dv01 (some r) defaultDelta,
        Utils.Pricer.dv01
          ⟨generate_cash_flows c F T.toNat, bondTimes T.toNat, r⟩
          none defaultDelta,
        liab.dv01 (some r) defaultDelta)] := by
  have h1 : ¬(T ≤ 0) := by omega
  have hlen : (generate_cash_flows c F T.toNat).length =
      (bondTimes T.toNat).length := by
    simp [generate_cash_flows, bondTimes]
  have hr2 : ¬(r < 0) := not_lt.mpr hr
  constructor
  · simp [calculate_hedge_ratio_over_time, Utils.Bond.make, h1, hc0, hc1,
      Bind.bind, Except.bind, List.mapM, List.mapM.loop, Pure.pure,
      Except.pure]
  · simp [calculate_hedge_ratio_over_time, Utils.Bond.make, Utils.Pricer.make,
      h1, hc0, hc1, hlen, hr2, Hedging.calculate_hedge_ratio, hl, Bind.bind,
      Except.bind, List.mapM, List.mapM.loop, Pure.pure, Except.pure]

/-- C9 witness: a one-period `5%` bond, notional `1`, liability schedule
`([1],[1])`, scenario rate `5%` (nonzero liability DV01 there). -/
theorem C9_witness :
    calculate_hedge_ratio_over_time 1 [] (1/20) 1 1 ⟨[1], [1], 1/20⟩ =
      Except.ok [] ∧
    calculate_hedge_ratio_over_time 1 [((0:ℤ), (1/20:ℝ))] (1/20) 1 1
        ⟨[1], [1], 1/20⟩ =
      Except.ok [((0:ℤ),
        (1 * Utils.Pricer.dv01
            ⟨generate_cash_flows (1/20) 1 (1:ℤ).toNat, bondTimes (1:ℤ).toNat,
              1/20⟩ none defaultDelta) /
          Utils.Pricer.dv01 ⟨[1], [1], 1/20⟩ (some (1/20)) defaultDelta,
        Utils.Pricer.dv01
          ⟨generate_cash_flows (1/20) 1 (1:ℤ).toNat, bondTimes (1:ℤ).toNat,
            1/20⟩ none defaultDelta,
        Utils.Pricer.dv01 ⟨[1], [1], 1/20⟩ (some (1/20)) defaultDelta)] :=
  C9_amended_time_series (1/20) 1 1 1 0 (1/20) ⟨[1], [1], 1/20⟩
    (by norm_num) (by norm_num) (by norm_num) (by norm_num)
    (by
      simp [Utils.Pricer.dv01, Utils.Pricer.present_value, pvSum, defaultDelta]
      norm_num)

end PensionFund
